import Mathlib

/-!
# Verification of proxy.py core components

A shallow embedding of the parts of the `proxy.py` repository needed to
settle the frozen claims: the leaky-bucket rate limiter
(`proxy/common/leakage.py`), the TCP listener (`proxy/core/listener/tcp.py`),
the port bookkeeping in `Proxy.setup` (`proxy/proxy.py`), and spec-level
models of the event dispatcher and the static web server plugin.

Conventions: Python `float` wall-clock times are modelled as rationals `ℚ`;
Python `int` as `ℤ` (ports and sizes, which are non-negative, as `ℕ`);
Python functions that raise are modelled with `Except String`.
-/

namespace ProxyPy

/-- Python's `int(x)` applied to a float: truncation toward zero. -/
def pyInt (q : ℚ) : ℤ := if q < 0 then ⌈q⌉ else ⌊q⌋

/-! ## Leaky bucket (`proxy/common/leakage.py`, class `Leakage`)

The Python class mutates `self`; we model each method as a function from
an explicit state (plus the current wall-clock time `now`, the value of
`time.time()` at the call) to the new state. -/

/-- State of `Leakage`: `rate`, `tokens`, `last_check`. -/
structure Leakage where
  rate : ℤ
  tokens : ℤ
  last_check : ℚ
  deriving Repr, DecidableEq

namespace Leakage

/-- `Leakage.__init__`: `tokens = rate`, `last_check = time.time()`. -/
def init (rate : ℤ) (now : ℚ) : Leakage :=
  { rate := rate, tokens := rate, last_check := now }

/-- `Leakage._refill`: `tokens += int(elapsed * rate); tokens = min(tokens, rate);
last_check = now`. -/
def refill (b : Leakage) (now : ℚ) : Leakage :=
  let elapsed : ℚ := now - b.last_check
  let tokens₁ : ℤ := b.tokens + pyInt (elapsed * (b.rate : ℚ))
  { rate := b.rate, tokens := min tokens₁ b.rate, last_check := now }

/-- `Leakage.release`: raises `ValueError` on negative `tokens`, else
`tokens += n; tokens = min(tokens, rate)`. -/
def release (b : Leakage) (n : ℤ) : Except String Leakage :=
  if n < 0 then .error "Cannot release a negative number of tokens"
  else .ok { b with tokens := min (b.tokens + n) b.rate }

/-- `Leakage.consume`: `_refill(); allowed = min(amount, tokens);
tokens -= allowed; return allowed`. Returns `(allowed, new state)`. -/
def consume (b : Leakage) (amount : ℤ) (now : ℚ) : ℤ × Leakage :=
  let b' := b.refill now
  let allowed := min amount b'.tokens
  (allowed, { b' with tokens := b'.tokens - allowed })

/-- A single caller-visible operation on a bucket: a `consume` call (with the
wall-clock value at the call) or a `release` call. -/
inductive Op
  | consume (amount : ℤ) (now : ℚ)
  | release (n : ℤ)

/-- Apply one operation to the bucket state.  A `release` that raises
`ValueError` leaves the state unchanged (the exception fires before any
mutation). -/
def applyOp (b : Leakage) : Op → Leakage
  | .consume amount now => (b.consume amount now).2
  | .release n =>
    match b.release n with
    | .ok b' => b'
    | .error _ => b

/-- Run a sequence of operations. -/
def runOps (b : Leakage) (ops : List Op) : Leakage := ops.foldl applyOp b

/-- The wall clock never runs backwards along the sequence: each `consume`
is called at a time no earlier than the bucket's `last_check`. -/
def ClockMono (b : Leakage) : List Op → Prop
  | [] => True
  | op :: ops =>
    (match op with
     | .consume _ now => b.last_check ≤ now
     | .release _ => True) ∧ ClockMono (b.applyOp op) ops

/-- Every `consume` in the sequence requests a non-negative amount. -/
def AmountsNonneg (ops : List Op) : Prop :=
  ∀ op ∈ ops, match op with
    | Op.consume amount _ => 0 ≤ amount
    | Op.release _ => True

end Leakage

lemma pyInt_of_nonneg {q : ℚ} (h : 0 ≤ q) : pyInt q = ⌊q⌋ := by
  simp [pyInt, not_lt.2 h]

lemma pyInt_nonneg {q : ℚ} (h : 0 ≤ q) : 0 ≤ pyInt q := by
  rw [pyInt_of_nonneg h]
  exact Int.floor_nonneg.2 h

namespace Leakage

/-- The state invariant of a healthy bucket. -/
def Inv (b : Leakage) : Prop := 0 < b.rate ∧ 0 ≤ b.tokens ∧ b.tokens ≤ b.rate

lemma refill_inv {b : Leakage} (hb : b.Inv) {now : ℚ} (hnow : b.last_check ≤ now) :
    (b.refill now).Inv := by
  obtain ⟨hr, h0, h1⟩ := hb
  have hq : 0 ≤ (now - b.last_check) * (b.rate : ℚ) :=
    mul_nonneg (sub_nonneg.2 hnow) (by exact_mod_cast hr.le)
  have := pyInt_nonneg hq
  refine ⟨hr, ?_, ?_⟩ <;> simp [Leakage.refill] <;> omega

lemma applyOp_inv {b : Leakage} (hb : b.Inv) {op : Op}
    (hop : ∀ amount now, op = Op.consume amount now →
      0 ≤ amount ∧ b.last_check ≤ now) :
    (b.applyOp op).Inv := by
  cases op with
  | consume amount now =>
    obtain ⟨ha, hnow⟩ := hop amount now rfl
    obtain ⟨hr, h0, h1⟩ := refill_inv hb hnow
    refine ⟨hr, ?_, ?_⟩ <;>
      simp only [Leakage.applyOp, Leakage.consume] <;> omega
  | release n =>
    obtain ⟨hr, h0, h1⟩ := hb
    by_cases hn : n < 0
    · simpa [Leakage.applyOp, Leakage.release, hn] using ⟨hr, h0, h1⟩
    · refine ⟨?_, ?_, ?_⟩ <;>
        simp [Leakage.applyOp, Leakage.release, hn] <;> omega

lemma clockMono_of_append {l₂ : List Op} : ∀ {b : Leakage} {l₁ : List Op},
    ClockMono b (l₁ ++ l₂) → ClockMono b l₁ := by
  intro b l₁
  induction l₁ generalizing b with
  | nil => intro _; trivial
  | cons op l₁ ih =>
    intro h
    exact ⟨h.1, ih h.2⟩

lemma runOps_inv {b : Leakage} (hb : b.Inv) {ops : List Op}
    (hmono : ClockMono b ops) (hnn : AmountsNonneg ops) :
    (b.runOps ops).Inv := by
  induction ops generalizing b with
  | nil => simpa [Leakage.runOps] using hb
  | cons op ops ih =>
    obtain ⟨hop, hmono'⟩ := hmono
    have hnn' : AmountsNonneg ops := fun o ho => hnn o (List.mem_cons_of_mem _ ho)
    have hopArg : ∀ amount now, op = Op.consume amount now →
        0 ≤ amount ∧ b.last_check ≤ now := by
      rintro amount now rfl
      exact ⟨hnn _ (List.mem_cons_self _ _), hop⟩
    have := ih (applyOp_inv hb hopArg) hmono' hnn'
    simpa [Leakage.runOps] using this

end Leakage

/-! ## Claims about the leaky bucket -/

/-- C1: for every bucket with `rate > 0` and every `amount`, `consume(amount)`
first refills tokens to `min(rate, tokens + ⌊elapsed * rate⌋)` where `elapsed`
is the (non-negative) time since `last_check`, sets `last_check = now`, then
returns `granted = min(amount, tokens)` and decrements `tokens` by `granted`. -/
theorem consume_refills_then_grants (b : Leakage) (amount : ℤ) (now : ℚ)
    (hrate : 0 < b.rate) (hmono : b.last_check ≤ now) :
    (b.consume amount now).1
      = min amount (min b.rate (b.tokens + ⌊(now - b.last_check) * (b.rate : ℚ)⌋)) ∧
    (b.consume amount now).2.tokens
      = min b.rate (b.tokens + ⌊(now - b.last_check) * (b.rate : ℚ)⌋)
        - (b.consume amount now).1 ∧
    (b.consume amount now).2.last_check = now ∧
    (b.consume amount now).2.rate = b.rate := by
  have hq : 0 ≤ (now - b.last_check) * (b.rate : ℚ) :=
    mul_nonneg (sub_nonneg.2 hmono) (by exact_mod_cast hrate.le)
  refine ⟨?_, ?_, ?_, ?_⟩ <;>
    simp [Leakage.consume, Leakage.refill, pyInt_of_nonneg hq, min_comm b.rate]

/-- Witness for C1: bucket `{rate := 100, tokens := 20, last_check := 0}`,
`consume 30` at time `1/2` grants `30` out of the `70` refilled tokens. -/
theorem consume_refills_then_grants_witness :
    (0 : ℤ) < 100 ∧ (0 : ℚ) ≤ 1 / 2 ∧
    ((Leakage.mk 100 20 0).consume 30 (1 / 2)).1
      = min 30 (min 100 (20 + ⌊((1 / 2 : ℚ) - 0) * ((100 : ℤ) : ℚ)⌋)) := by
  refine ⟨by norm_num, by norm_num, ?_⟩
  exact (consume_refills_then_grants ⟨100, 20, 0⟩ 30 (1 / 2)
    (by norm_num) (by norm_num)).1

/-- C2 counterexample: the invariant `0 ≤ tokens ≤ rate` does NOT survive
every sequence of `consume`/`release` calls.  On `new(100)` a single
`consume(-50)` (zero elapsed time, so the clock is monotone) leaves
`tokens = 150 > 100 = rate`. -/
theorem tokens_le_rate_counterexample :
    Leakage.ClockMono (Leakage.init 100 0) [Leakage.Op.consume (-50) 0] ∧
    (Leakage.runOps (Leakage.init 100 0) [Leakage.Op.consume (-50) 0]).tokens = 150 ∧
    ¬ ((Leakage.runOps (Leakage.init 100 0) [Leakage.Op.consume (-50) 0]).tokens
        ≤ (Leakage.runOps (Leakage.init 100 0) [Leakage.Op.consume (-50) 0]).rate) := by
  refine ⟨⟨by norm_num [Leakage.init], trivial⟩, ?_, ?_⟩ <;>
    norm_num [Leakage.runOps, Leakage.applyOp, Leakage.consume, Leakage.refill,
      Leakage.init, pyInt]

/-- C2 amended: for every bucket `new(rate)` with `rate > 0` and every
sequence of `consume`/`release` calls in which every `consume` requests a
non-negative amount, with non-negative elapsed time between calls, the
invariant `0 ≤ tokens ≤ rate` holds after construction and after each call. -/
theorem tokens_between_zero_and_rate (rate : ℤ) (now₀ : ℚ) (ops : List Leakage.Op)
    (hrate : 0 < rate)
    (hmono : Leakage.ClockMono (Leakage.init rate now₀) ops)
    (hnn : Leakage.AmountsNonneg ops) :
    ∀ pre, pre <+: ops →
      0 ≤ (Leakage.runOps (Leakage.init rate now₀) pre).tokens ∧
      (Leakage.runOps (Leakage.init rate now₀) pre).tokens
        ≤ (Leakage.runOps (Leakage.init rate now₀) pre).rate := by
  intro pre hpre
  have hinit : (Leakage.init rate now₀).Inv :=
    ⟨hrate, hrate.le, le_refl _⟩
  have hmono' : Leakage.ClockMono (Leakage.init rate now₀) pre := by
    obtain ⟨suf, rfl⟩ := hpre
    exact Leakage.clockMono_of_append hmono
  have hnn' : Leakage.AmountsNonneg pre := by
    intro op hop
    exact hnn op (hpre.subset hop)
  exact ⟨(Leakage.runOps_inv hinit hmono' hnn').2.1,
    (Leakage.runOps_inv hinit hmono' hnn').2.2⟩

/-- Witness for the amended C2: rate `100`, the spec's steady-state call
sequence (consume 150 at t=1, consume 10 at t=1, release 30,
consume 60 at t=3/2) keeps `0 ≤ tokens ≤ rate` at every prefix. -/
theorem tokens_between_zero_and_rate_witness :
    0 ≤ (Leakage.runOps (Leakage.init 100 0)
      [Leakage.Op.consume 150 1, Leakage.Op.consume 10 1,
       Leakage.Op.release 30, Leakage.Op.consume 60 (3 / 2)]).tokens := by
  have h := tokens_between_zero_and_rate 100 0
    [Leakage.Op.consume 150 1, Leakage.Op.consume 10 1,
     Leakage.Op.release 30, Leakage.Op.consume 60 (3 / 2)]
    (by norm_num)
    (by
      refine ⟨?_, ?_, trivial, ?_, trivial⟩ <;>
        norm_num [Leakage.applyOp, Leakage.consume, Leakage.refill,
          Leakage.release, Leakage.init, pyInt])
    (by intro op hop; fin_cases hop <;> trivial)
  exact (h _ (List.prefix_refl _)).1

/-- C3: `release(n)` raises `ValueError` for every `n < 0` (the exception
fires before any mutation, so the state is unchanged); for every `n ≥ 0` it
returns normally with `tokens = min(rate, tokens + n)`. -/
theorem release_guards_negative (b : Leakage) (n : ℤ) :
    (n < 0 → b.release n = .error "Cannot release a negative number of tokens") ∧
    (0 ≤ n → b.release n = .ok { b with tokens := min b.rate (b.tokens + n) }) := by
  constructor
  · intro hn
    simp [Leakage.release, hn]
  · intro hn
    simp [Leakage.release, not_lt.2 hn, min_comm b.rate]

/-- Witness for C3: both branches at a concrete bucket
`{rate := 100, tokens := 30, last_check := 0}` with `n = -1` and `n = 5`. -/
theorem release_guards_negative_witness :
    (Leakage.mk 100 30 0).release (-1)
      = .error "Cannot release a negative number of tokens" ∧
    (Leakage.mk 100 30 0).release 5
      = .ok { Leakage.mk 100 30 0 with tokens := min 100 (30 + 5) } :=
  ⟨(release_guards_negative ⟨100, 30, 0⟩ (-1)).1 (by norm_num),
   (release_guards_negative ⟨100, 30, 0⟩ 5).2 (by norm_num)⟩

/-- C8: on `new(100)` at time 0: at time 1, `consume(150) = 100` and then
`consume(10) = 0`; at time 3/2, `consume(60) = 50`. -/
theorem steady_state_scenario :
    ((Leakage.init 100 0).consume 150 1).1 = 100 ∧
    ((((Leakage.init 100 0).consume 150 1).2).consume 10 1).1 = 0 ∧
    (((((((Leakage.init 100 0).consume 150 1).2).consume 10 1).2).consume
      60 (3 / 2))).1 = 50 := by
  norm_num [Leakage.consume, Leakage.refill, Leakage.init, pyInt]

/-- C9: `consume` does not validate its argument: whenever `amount < 0` (and
the bucket's refilled token count is non-negative, as it is in every
reachable state), `consume(amount)` returns `amount` itself and increases
`tokens` by `|amount|`, with no upper cap applied after the subtraction;
concretely, `new(100).consume(-50)` leaves `tokens = 150 > rate`. -/
theorem consume_negative_amount (b : Leakage) (amount : ℤ) (now : ℚ)
    (hamount : amount < 0) (htokens : 0 ≤ (b.refill now).tokens) :
    (b.consume amount now).1 = amount ∧
    (b.consume amount now).2.tokens = (b.refill now).tokens + |amount| ∧
    ((Leakage.init 100 0).consume (-50) 0).2.tokens
      > ((Leakage.init 100 0).consume (-50) 0).2.rate := by
  have hmin : min amount (b.refill now).tokens = amount :=
    min_eq_left (le_trans hamount.le htokens)
  refine ⟨?_, ?_, ?_⟩
  · simp [Leakage.consume, hmin]
  · simp [Leakage.consume, hmin, abs_of_neg hamount]
    ring
  · norm_num [Leakage.consume, Leakage.refill, Leakage.init, pyInt]

/-- Witness for C9: bucket `{rate := 100, tokens := 100, last_check := 0}`,
`consume (-50)` at time 0 returns `-50`. -/
theorem consume_negative_amount_witness :
    (-50 : ℤ) < 0 ∧ ((Leakage.mk 100 100 0).consume (-50) 0).1 = -50 :=
  ⟨by norm_num,
   (consume_negative_amount ⟨100, 100, 0⟩ (-50) 0 (by norm_num)
     (by norm_num [Leakage.refill, pyInt])).1⟩

/-! ## TCP listener (`proxy/core/listener/tcp.py`, class `TcpSocketListener`)

`listen()` performs a fixed sequence of socket calls.  We model a Python
socket object as a record of the observable attributes those calls set, and
each call as a pure state update.  The kernel's part of `bind` — assigning
an ephemeral port when port `0` is requested — is a parameter `osEphemeral`. -/

/-- Socket address family passed to `socket.socket`. -/
inductive SockFamily
  | af_inet
  | af_inet6
  deriving Repr, DecidableEq

/-- Observable state of a Python TCP socket object. -/
structure PySocket where
  family : SockFamily
  reuseaddr : Bool
  nodelay : Bool
  bound : Option (String × ℕ)
  backlogOpt : Option ℕ
  blocking : Bool
  deriving Repr, DecidableEq

namespace PySocket

/-- `socket.socket(family, socket.SOCK_STREAM)`: a fresh blocking socket with
no options set and no address bound. -/
def create (family : SockFamily) : PySocket :=
  { family := family, reuseaddr := false, nodelay := false,
    bound := none, backlogOpt := none, blocking := true }

/-- `setsockopt(SOL_SOCKET, SO_REUSEADDR, 1)`. -/
def setReuseAddr (s : PySocket) : PySocket := { s with reuseaddr := true }

/-- `setsockopt(IPPROTO_TCP, TCP_NODELAY, 1)`. -/
def setNoDelay (s : PySocket) : PySocket := { s with nodelay := true }

/-- `bind((host, port))`.  The kernel realizes port `0` as the OS-assigned
ephemeral port `osEphemeral`, any other port as itself. -/
def bind (s : PySocket) (host : String) (port osEphemeral : ℕ) : PySocket :=
  { s with bound := some (host, if port = 0 then osEphemeral else port) }

/-- `listen(backlog)`. -/
def listenWith (s : PySocket) (backlog : ℕ) : PySocket :=
  { s with backlogOpt := some backlog }

/-- `setblocking(flag)`. -/
def setBlocking (s : PySocket) (flag : Bool) : PySocket :=
  { s with blocking := flag }

/-- `getsockname()`: the bound `(address, port)` pair. -/
def getsockname (s : PySocket) : Option (String × ℕ) := s.bound

end PySocket

/-- `TcpSocketListener.__init__` state: the configured hostname (with its IP
version, from `ipaddress`), the requested port, and `flags.backlog`. -/
structure TcpSocketListener where
  hostname_version : ℕ
  hostname : String
  port : ℕ
  flags_backlog : ℕ

namespace TcpSocketListener

/-- `TcpSocketListener.listen`: creates the socket (family by hostname IP
version), sets `SO_REUSEADDR` and `TCP_NODELAY`, binds to
`(hostname, port)`, listens with `flags.backlog`, makes the socket
non-blocking, and records `self._port = sock.getsockname()[1]`.
Returns the socket and the recorded `_port`. -/
def listen (l : TcpSocketListener) (osEphemeral : ℕ) : PySocket × Option ℕ :=
  let sock := PySocket.create
    (if l.hostname_version = 6 then .af_inet6 else .af_inet)
  let sock := sock.setReuseAddr
  let sock := sock.setNoDelay
  let sock := sock.bind l.hostname l.port osEphemeral
  let sock := sock.listenWith l.flags_backlog
  let sock := sock.setBlocking false
  (sock, (sock.getsockname).map Prod.snd)

end TcpSocketListener

/-- C4: `TcpSocketListener.listen()` creates a socket of the family matching
the hostname's IP version, sets `SO_REUSEADDR` and `TCP_NODELAY`, binds to
`(hostname, port)`, listens with the configured backlog, makes the socket
non-blocking, and records the realized bound port — in particular a
requested `port = 0` yields the OS-assigned ephemeral port, and a non-zero
requested port yields itself. -/
theorem tcp_listener_listen (l : TcpSocketListener) (osEphemeral : ℕ) :
    (l.listen osEphemeral).1.family
      = (if l.hostname_version = 6 then .af_inet6 else .af_inet) ∧
    (l.listen osEphemeral).1.reuseaddr = true ∧
    (l.listen osEphemeral).1.nodelay = true ∧
    (l.listen osEphemeral).1.bound
      = some (l.hostname, if l.port = 0 then osEphemeral else l.port) ∧
    (l.listen osEphemeral).1.backlogOpt = some l.flags_backlog ∧
    (l.listen osEphemeral).1.blocking = false ∧
    (l.listen osEphemeral).2
      = some (if l.port = 0 then osEphemeral else l.port) := by
  refine ⟨rfl, rfl, rfl, rfl, rfl, rfl, rfl⟩

/-! ## Port bookkeeping in `Proxy.setup` (`proxy/proxy.py`)

`Proxy.setup` first sets up the listener pool, overrides `flags.port` /
`flags.ports` with the realized ports, writes the port file, and only then
creates the acceptor pool (passing it `flags`).  The listener pool itself
(`proxy/core/listener/pool.py`) is not among the sources; per the spec the
pool is an ordered list of bound listeners with the unix socket, if present,
always at index 0.  We therefore parameterize `setup` by `poolPorts`, the
list of realized `_port` values of the pool's listeners in pool order (the
value at the unix-socket index, if any, is never read).  Python's `set` of
ports is modelled as a `Finset ℕ`.  Steps of `setup` that do not touch
ports or flags (event manager, executors, ssh tunnel, metrics, signal
handlers) are elided from the effect trace. -/

/-- The flags fields `Proxy.setup` reads and writes for port bookkeeping. -/
structure Flags where
  port : ℕ
  ports : List ℕ
  unix_socket_path : Option String
  port_file : Option String
  deriving Repr, DecidableEq

namespace Proxy

/-- The `flags.port` / `flags.ports` override block of `Proxy.setup`:
`flags.port = pool[0]._port` unless a unix socket path is configured;
`ports = set(pool[offset + i]._port for i < len(flags.ports))`;
`if flags.port in ports: ports.remove(flags.port)`; `flags.ports = list(ports)`. -/
def overridePorts (flags : Flags) (poolPorts : List ℕ) : Flags :=
  let port' : ℕ :=
    if flags.unix_socket_path.isSome then flags.port else poolPorts.headD 0
  let offset : ℕ := if flags.unix_socket_path.isSome then 1 else 0
  let ports : List ℕ :=
    ((poolPorts.drop offset).take flags.ports.length).dedup
  let ports : List ℕ := if port' ∈ ports then ports.erase port' else ports
  { flags with port := port', ports := ports }

/-- `Proxy._write_port_file`: one port per line — `flags.port` first unless a
unix socket path is configured, then each port of `flags.ports`. -/
def portFileLines (flags : Flags) : List ℕ :=
  (if flags.unix_socket_path.isSome then [] else [flags.port]) ++ flags.ports

/-- The bytes `Proxy._write_port_file` writes: each line is the decimal port
followed by `\n`. -/
def portFileContent (flags : Flags) : Option String :=
  flags.port_file.map fun _ =>
    String.join ((portFileLines flags).map fun p => toString p ++ "\x0a")

/-- One observable step of `Proxy.setup`, in execution order. -/
inductive SetupStep
  | writePidFile
  | listenersSetup
  | portOverride (port : ℕ) (ports : List ℕ)
  | writePortFile (content : Option String)
  | acceptorsSetup (flagsPort : ℕ) (flagsPorts : List ℕ)
  deriving Repr, DecidableEq

/-- `Proxy.setup`: pid file, listener setup, port override, port file write,
then acceptor pool creation with the (already overridden) flags.  Returns
the post-setup flags and the ordered effect trace. -/
def setup (flags : Flags) (poolPorts : List ℕ) : Flags × List SetupStep :=
  let flags' := overridePorts flags poolPorts
  (flags',
   [SetupStep.writePidFile,
    SetupStep.listenersSetup,
    SetupStep.portOverride flags'.port flags'.ports,
    SetupStep.writePortFile (portFileContent flags'),
    SetupStep.acceptorsSetup flags'.port flags'.ports])

/-- Modelled from the spec: the listener pool layout (`core/listener/pool.py`
is not among the sources).  Per the spec the pool is the ordered list of
bound listeners; in the non-unix case the primary TCP listener (for
`flags.hostname:flags.port`) comes first — `Proxy.setup` reads its realized
port at `pool[0]` — followed by one TCP listener per additional configured
port, in order.  `specPoolPorts primary additional` is the list of their
realized `_port` values in pool order. -/
def specPoolPorts (primary : ℕ) (additional : List ℕ) : List ℕ :=
  primary :: additional

end Proxy

/-- C5 fails on the code (off-by-one in the `--ports` override loop): with no
unix socket path, a port file configured, two additional configured ports
(`--ports 0 0`) whose listeners realize ports `9000` and `9001`, and the
primary listener realizing `8899`, `offset = 0` makes the loop read pool
indices `0` and `1` — the primary listener and the first additional listener
— so the port file contains exactly the lines `8899` and `9000`: the
realized additional port `9001` is listening but never written, contradicting
"followed by each additional realized port".  (`flags.port` is still
correctly overridden to `8899` before the acceptor pool is created.) -/
theorem setup_port_file_misses_last_additional :
    (Proxy.setup ⟨0, [0, 0], none, some "ports.txt"⟩
        (Proxy.specPoolPorts 8899 [9000, 9001])).1.port = 8899 ∧
    Proxy.portFileLines
        (Proxy.setup ⟨0, [0, 0], none, some "ports.txt"⟩
          (Proxy.specPoolPorts 8899 [9000, 9001])).1
      = [8899, 9000] ∧
    9001 ∉ Proxy.portFileLines
        (Proxy.setup ⟨0, [0, 0], none, some "ports.txt"⟩
          (Proxy.specPoolPorts 8899 [9000, 9001])).1 ∧
    Proxy.portFileContent
        (Proxy.setup ⟨0, [0, 0], none, some "ports.txt"⟩
          (Proxy.specPoolPorts 8899 [9000, 9001])).1
      = some "8899\x0a9000\x0a" ∧
    (∃ i j : ℕ, i < j ∧
      (Proxy.setup ⟨0, [0, 0], none, some "ports.txt"⟩
          (Proxy.specPoolPorts 8899 [9000, 9001])).2[i]?
        = some (Proxy.SetupStep.portOverride 8899 [9000]) ∧
      (Proxy.setup ⟨0, [0, 0], none, some "ports.txt"⟩
          (Proxy.specPoolPorts 8899 [9000, 9001])).2[j]?
        = some (Proxy.SetupStep.acceptorsSetup 8899 [9000])) := by
  refine ⟨?_, ?_, ?_, ?_, ⟨2, 4, by norm_num, ?_, ?_⟩⟩ <;>
    simp [Proxy.setup, Proxy.overridePorts, Proxy.specPoolPorts,
      Proxy.portFileLines, Proxy.portFileContent, List.dedup] <;>
    decide

/-- C10 fails on the code (same off-by-one): in the scenario of
`setup_port_file_misses_last_additional`, the deduplicated set of realized
additional listener ports with the primary removed is `{9000, 9001}`, but
`flags.ports` ends up `[9000]` — the realized additional port `9001` is
dropped, while the primary realized port `8899` was read into the set and
then removed by the `if flags.port in ports` guard. -/
theorem setup_flags_ports_miss_last_additional :
    (Proxy.setup ⟨0, [0, 0], none, some "ports.txt"⟩
        (Proxy.specPoolPorts 8899 [9000, 9001])).1.ports = [9000] ∧
    9001 ∈ [9000, 9001] ∧
    9001 ∉ (Proxy.setup ⟨0, [0, 0], none, some "ports.txt"⟩
        (Proxy.specPoolPorts 8899 [9000, 9001])).1.ports ∧
    9001 ≠ (Proxy.setup ⟨0, [0, 0], none, some "ports.txt"⟩
        (Proxy.specPoolPorts 8899 [9000, 9001])).1.port := by
  refine ⟨?_, by norm_num, ?_, ?_⟩ <;>
    simp [Proxy.setup, Proxy.overridePorts, Proxy.specPoolPorts, List.dedup]

/-! ## Event queue / dispatcher (spec model)

The event subsystem (`proxy/core/event/*`) is not among the sources; only
its test (`src/tests/core/test_event_dispatcher.py`) is.  The model below is
built from the spec's description of the dispatcher operations and is
exercised against the behaviours that test pins down. -/

/-- A full event record as broadcast to subscribers: the publisher-supplied
`request_id`, `event_name`, `event_payload`, `publisher_id` plus the
publisher-side metadata `process_id`, `thread_id`, `event_timestamp`. -/
structure EventRecord where
  request_id : String
  process_id : ℕ
  thread_id : ℕ
  event_timestamp : ℚ
  event_name : ℕ
  event_payload : String
  publisher_id : String
  deriving Repr, DecidableEq

/-- One message observed on a subscriber's channel. -/
inductive ChannelMsg
  | ackSubscribed
  | ackUnsubscribed
  | record (r : EventRecord)
  deriving Repr, DecidableEq

/-- A subscriber as the dispatcher sees it: its id, the messages sent to its
channel so far, and whether the channel has been closed (a closed channel is
observed by the reader as end-of-stream after the sent messages). -/
structure Subscriber where
  sub_id : String
  sent : List ChannelMsg
  closed : Bool
  deriving Repr, DecidableEq

/-- Arguments of a `publish` call, including the publisher-side metadata
captured at publish time. -/
structure PubArgs where
  request_id : String
  process_id : ℕ
  thread_id : ℕ
  event_timestamp : ℚ
  event_name : ℕ
  event_payload : String
  publisher_id : String
  deriving Repr, DecidableEq

/-- The record broadcast for a `publish` call. -/
def PubArgs.toRecord (p : PubArgs) : EventRecord :=
  ⟨p.request_id, p.process_id, p.thread_id, p.event_timestamp,
   p.event_name, p.event_payload, p.publisher_id⟩

/-- One operation drained from the event queue by the dispatcher. -/
inductive EvOp
  | subscribe (sub_id : String)
  | unsubscribe (sub_id : String)
  | publish (args : PubArgs)

/-- Modelled from the spec: the dispatcher's handling of one drained
operation (`EventDispatcher` in `proxy/core/event/dispatcher.py`, missing
from the sources).  `subscribe` registers the channel and acks with
`{event_name: SUBSCRIBED}`; `unsubscribe` acks with
`{event_name: UNSUBSCRIBED}` and closes the channel; `publish` broadcasts
the full event record to every currently subscribed (open) channel. -/
def dispatch (subs : List Subscriber) : EvOp → List Subscriber
  | .subscribe sid => subs ++ [⟨sid, [.ackSubscribed], false⟩]
  | .unsubscribe sid =>
      subs.map fun s =>
        if s.sub_id = sid && !s.closed then
          { s with sent := s.sent ++ [.ackUnsubscribed], closed := true }
        else s
  | .publish p =>
      subs.map fun s =>
        if s.closed then s
        else { s with sent := s.sent ++ [.record p.toRecord] }

/-- Run the dispatcher over a queue of operations, in FIFO order. -/
def runEv (subs : List Subscriber) (ops : List EvOp) : List Subscriber :=
  ops.foldl dispatch subs

lemma runEv_publishes_open (sid : String) (msgs : List ChannelMsg)
    (ps : List PubArgs) :
    runEv [⟨sid, msgs, false⟩] (ps.map EvOp.publish)
      = [⟨sid, msgs ++ ps.map (fun p => ChannelMsg.record p.toRecord), false⟩] := by
  induction ps generalizing msgs with
  | nil => simp [runEv]
  | cons p ps ih =>
    simpa [runEv, dispatch] using ih (msgs ++ [ChannelMsg.record p.toRecord])

lemma runEv_publishes_closed (sid : String) (msgs : List ChannelMsg)
    (qs : List PubArgs) :
    runEv [⟨sid, msgs, true⟩] (qs.map EvOp.publish)
      = [⟨sid, msgs, true⟩] := by
  induction qs with
  | nil => simp [runEv]
  | cons q qs ih =>
    simpa [runEv, dispatch] using ih

/-- C6: for a subscriber `sid`: the subscription is acknowledged with exactly
`{event_name: SUBSCRIBED}`; each subsequent publish delivers exactly one
full record (fields `request_id`, `process_id`, `thread_id`,
`event_timestamp`, `event_name`, `event_payload`, `publisher_id`) in publish
order; `unsubscribe` is acknowledged with `{event_name: UNSUBSCRIBED}` and
publishes after it cause no further delivery, the channel being closed
(end-of-stream). -/
theorem event_fanout (sid : String) (ps qs : List PubArgs) :
    runEv [] ([EvOp.subscribe sid] ++ ps.map EvOp.publish
        ++ [EvOp.unsubscribe sid] ++ qs.map EvOp.publish)
      = [⟨sid,
          [ChannelMsg.ackSubscribed]
            ++ ps.map (fun p => ChannelMsg.record p.toRecord)
            ++ [ChannelMsg.ackUnsubscribed],
          true⟩] := by
  have h1 : runEv [] [EvOp.subscribe sid] = [⟨sid, [.ackSubscribed], false⟩] := by
    simp [runEv, dispatch]
  rw [runEv, List.foldl_append, List.foldl_append, List.foldl_append]
  show runEv (runEv (runEv (runEv [] [EvOp.subscribe sid])
      (ps.map EvOp.publish)) [EvOp.unsubscribe sid]) (qs.map EvOp.publish) = _
  rw [h1, runEv_publishes_open]
  have h2 : runEv [⟨sid, [ChannelMsg.ackSubscribed]
        ++ ps.map (fun p => ChannelMsg.record p.toRecord), false⟩]
      [EvOp.unsubscribe sid]
      = [⟨sid, ([ChannelMsg.ackSubscribed]
          ++ ps.map (fun p => ChannelMsg.record p.toRecord))
          ++ [ChannelMsg.ackUnsubscribed], true⟩] := by
    simp [runEv, dispatch]
  rw [h2, runEv_publishes_closed]

/-! ## Static web server plugin (spec model)

The static-server plugin (`proxy/http/server/web.py`) is not among the
sources; only its test (`src/tests/http/web/test_web_server.py`) is.  The
model below follows the spec's static-gzip scenario.  Gzip compression is
an external library call, kept abstract as a function parameter `gz` on
byte strings (lists of bytes). -/

/-- An HTTP response as the plugin builds it: status code, headers, body. -/
structure HttpRes where
  code : ℕ
  headers : List (String × String)
  body : List ℕ
  deriving Repr, DecidableEq

/-- Content type by file extension; the spec's scenario needs `.html`. -/
def contentTypeFor (path : String) : String :=
  if ".html".data.isSuffixOf path.data then "text/html"
  else "application/octet-stream"

/-- Modelled from the spec: the static-server plugin's handling of
`GET path` (class `StaticServerPlugin` in `proxy/http/server/web.py`,
missing from the sources).  `files` maps a request path to the contents of
the corresponding file under the static directory, if it exists.  An
existing file is served as exactly one 200 response with
`content-type` by extension, `cache-control: max-age=86400`,
`content-encoding: gzip`, `content-length` equal to the gzipped size and
the gzipped contents as body; a missing file yields no response here
(the canonical 404 packet, out of this claim's scope). -/
def serveStatic (gz : List ℕ → List ℕ) (files : String → Option (List ℕ))
    (path : String) : Option HttpRes :=
  (files path).map fun content =>
    { code := 200,
      headers :=
        [("content-type", contentTypeFor path),
         ("cache-control", "max-age=86400"),
         ("content-encoding", "gzip"),
         ("content-length", toString (gz content).length)],
      body := gz content }

/-- C7: with the static-server plugin enabled, `GET /index.html` for an
existing HTML file yields exactly one response: code 200, headers including
`content-type: text/html`, `cache-control: max-age=86400`,
`content-encoding: gzip`, and `content-length` equal to the size of the
gzip-compressed file; the body gunzips to exactly the file's contents
(for any gunzip that inverts the gzip used). -/
theorem static_server_serves_gzipped (gz gunzip : List ℕ → List ℕ)
    (files : String → Option (List ℕ)) (content : List ℕ)
    (hinv : ∀ b, gunzip (gz b) = b)
    (hfile : files "/index.html" = some content) :
    ∃ r, serveStatic gz files "/index.html" = some r ∧
      r.code = 200 ∧
      ("content-type", "text/html") ∈ r.headers ∧
      ("cache-control", "max-age=86400") ∈ r.headers ∧
      ("content-encoding", "gzip") ∈ r.headers ∧
      ("content-length", toString (gz content).length) ∈ r.headers ∧
      gunzip r.body = content := by
  have hct : contentTypeFor "/index.html" = "text/html" := by decide
  refine ⟨{ code := 200,
            headers :=
              [("content-type", contentTypeFor "/index.html"),
               ("cache-control", "max-age=86400"),
               ("content-encoding", "gzip"),
               ("content-length", toString (gz content).length)],
            body := gz content }, ?_, rfl, ?_, ?_, ?_, ?_, ?_⟩ <;>
    simp [serveStatic, hfile, hct, hinv]

/-- Witness for C7: the identity as gzip/gunzip pair, a one-file static
directory holding `/index.html` with a two-byte body. -/
theorem static_server_serves_gzipped_witness :
    (∀ b : List ℕ, id (id b) = b) ∧
    (∃ r, serveStatic id
        (fun p => if p = "/index.html" then some [60, 104] else none)
        "/index.html" = some r ∧
      r.code = 200 ∧
      ("content-type", "text/html") ∈ r.headers ∧
      ("cache-control", "max-age=86400") ∈ r.headers ∧
      ("content-encoding", "gzip") ∈ r.headers ∧
      ("content-length", toString (id [60, 104] : List ℕ).length) ∈ r.headers ∧
      id r.body = [60, 104]) :=
  ⟨fun _ => rfl,
   static_server_serves_gzipped id id
     (fun p => if p = "/index.html" then some [60, 104] else none)
     [60, 104] (fun _ => rfl) (by simp)⟩

end ProxyPy
